import Mathlib

set_option maxRecDepth 8000

/-!
Shallow Lean embedding of the `rust_exercises` repository (Rust-book style
chapter snippets), together with theorems settling the specification claims
about it.  Each definition is translated from the Rust source file named in
its doc comment; machine integers are modelled as `Int`/`Nat`, panics as
`Except`/explicit result constructors, and the f64 percentage computation of
`LimitTracker::set_value` by an executable model of IEEE-754 binary64
casts, division and comparisons (round to nearest, ties to even).
-/

namespace RustEx

/-! ### Chapter 13, `closures.rs`: `ShirtColor`, `Inventory` -/

/-- Translated from `src/chapter_13/src/closures.rs`: `enum ShirtColor { Red, Blue }`. -/
inductive ShirtColor
  | Red
  | Blue
deriving DecidableEq, Repr, BEq

/-- Translated from `src/chapter_13/src/closures.rs`: `struct Inventory { shirts: Vec<ShirtColor> }`. -/
structure Inventory where
  shirts : List ShirtColor

/-- Translated from `Inventory::most_stocked` (`closures.rs` lines 52-67): the
for loop over `&self.shirts` incrementing `num_red`/`num_blue` is rendered as a
left fold over the list carrying the pair `(num_red, num_blue)`. -/
def Inventory.most_stocked (inv : Inventory) : ShirtColor :=
  let counts :=
    inv.shirts.foldl
      (fun (p : Nat × Nat) color =>
        match color with
        | ShirtColor.Red => (p.1 + 1, p.2)
        | ShirtColor.Blue => (p.1, p.2 + 1))
      (0, 0)
  if counts.1 > counts.2 then ShirtColor.Red else ShirtColor.Blue

/-- Translated from `Inventory::giveaway` (`closures.rs` lines 43-45):
`user_preference.unwrap_or_else(|| self.most_stocked())`, with
`unwrap_or_else` unfolded to its `match` on the option. -/
def Inventory.giveaway (inv : Inventory) (user_preference : Option ShirtColor) : ShirtColor :=
  match user_preference with
  | some x => x
  | none => inv.most_stocked

/-! ### Chapter 13, `iterators.rs`: the `iterator_sum` unit test -/

/-- Translated from the `iterator_sum` test (`iterators.rs` lines 151-159):
`let v1 = vec![1, 2, 3];`. -/
def iterator_sum_v1 : List Int := [1, 2, 3]

/-- Translated from the `iterator_sum` test: `let total: i32 = v1_iter.sum();`,
with `Iterator::sum` over `i32` rendered as `List.sum` over `Int`. -/
def iterator_sum_total : Int := iterator_sum_v1.sum

/-! ### Chapter 11, `lib.rs`: `greeting` and `Guess` -/

/-- Translated from `src/chapter_11/src/lib.rs` lines 143-146: the (deliberately
buggy) `greeting` ignores its argument and returns `String::from("Hello")`. -/
def greeting (_name : String) : String := "Hello"

/-- Executable substring containment, the semantics of Rust
`str::contains(&str)`: some suffix of `s` starts with `sub` (the empty pattern
is contained in every string). -/
def strContains (s sub : String) : Bool :=
  (List.range (s.toList.length + 1)).any fun i => sub.toList.isPrefixOf (s.toList.drop i)

/-- Translated from `struct Guess { value: i32 }` (`lib.rs`). -/
structure Guess where
  value : Int
deriving DecidableEq, Repr

/-- Message of the `value < 1` panic arm of `Guess::new` (`lib.rs` line 161). -/
def guessMsgLt1 (value : Int) : String :=
  "The value provided was less than 1, got: " ++ toString value

/-- Message of the `value > 100` panic arm of `Guess::new` (`lib.rs` line 163). -/
def guessMsgGt100 (value : Int) : String :=
  "The value provided was greater than 100, got: " ++ toString value

/-- Translated from `Guess::new` (`lib.rs` lines 152-169); the two `panic!`
arms become `Except.error` carrying the formatted panic message. -/
def Guess.new (value : Int) : Except String Guess :=
  if value < 1 then Except.error (guessMsgLt1 value)
  else if value > 100 then Except.error (guessMsgGt100 value)
  else Except.ok { value := value }

/-- True exactly when `Guess::new` panics on `value`. -/
def Guess.newPanics (value : Int) : Bool :=
  match Guess.new value with
  | Except.error _ => true
  | Except.ok _ => false

/-! ### Chapter 15, `ref_cell.rs`: `Messenger`, `LimitTracker`, `MockMessenger` -/

/-- Translated from `pub trait Messenger { fn send(&self, msg: &str); }`
(`ref_cell.rs` lines 100-102).  The effect of `send` on the messenger is made
explicit: `send` maps the messenger state and the message to the new state. -/
class Messenger (σ : Type) where
  send : σ → String → σ

/-- Exact text of the over-quota message sent by `set_value`. -/
def msgOverQuota : String := "Error: You are over your quota!"

/-- Exact text of the 90% warning sent by `set_value`. -/
def msgWarning90 : String := "Urgent warning: You\x27ve used up over 90% of your quota!"

/-- Exact text of the 75% warning sent by `set_value`. -/
def msgWarning75 : String := "Warning: You\x27ve used up over 75% of your quota!"

/-- Translated from `struct LimitTracker` (`ref_cell.rs` lines 104-108); the
`&'a T` messenger reference is threaded explicitly through `set_value` instead
of being stored in the struct. -/
structure LimitTracker where
  value : Nat
  max : Nat

/-- Translated from `LimitTracker::new` (`ref_cell.rs` lines 114-120):
`LimitTracker { messenger, value: 0, max }`. -/
def LimitTracker.new (max : Nat) : LimitTracker :=
  { value := 0, max := max }

/-- IEEE-754 binary64 value as produced by the computations of `set_value`:
a finite nonnegative value `m * 2 ^ e` (the significand need not be
normalized), positive infinity, or NaN.  Signs are omitted because every
quantity in `set_value` is a `usize` cast or a quotient of such casts, hence
nonnegative. -/
inductive F64
  | finite (m : Nat) (e : Int)
  | inf
  | nan
deriving DecidableEq, Repr

/-- Number of binary digits of `n` for `n < 2 ^ 400` (ample for every
quantity of this development); `bitLen 0 = 0`.  The fold carries the running
power of two alongside the answer so that no large exponentiation occurs. -/
def bitLen (n : Nat) : Nat :=
  ((List.range 400).foldl
    (fun (p : Nat × Nat) i => (if p.2 ≤ n then i + 1 else p.1, p.2 * 2)) (0, 1)).1

/-- Round the nonnegative rational `p / q` (`q ≠ 0`) to the nearest binary64
value, ties to even: the quotient is computed to 160 extra bits, the
significand is cut to 53 bits, and the exact remainder decides the rounding
direction (up above half an ulp; to the even significand at exactly half).
This is IEEE-754 round-to-nearest-even for every cast of an unsigned integer
and every quotient of such casts (a range with no overflow, underflow or
subnormals). -/
def rnScaled (p q : Nat) : F64 :=
  let N := p * 2 ^ 160
  let Qn := N / q
  let r := N % q
  let s := bitLen Qn - 53
  let m0 := Qn / 2 ^ s
  let low := Qn % 2 ^ s
  let num := 2 * (low * q + r)
  let t := q * 2 ^ s
  let m' :=
    if num > t then m0 + 1
    else if num = t then (if m0 % 2 = 1 then m0 + 1 else m0)
    else m0
  F64.finite m' ((s : Int) - 160)

/-- The `as f64` cast of an unsigned integer: round to nearest, ties to even. -/
def natToF64 (n : Nat) : F64 := rnScaled n 1

/-- IEEE-754 binary64 division of nonnegative values: correctly rounded for
finite operands, `x / 0 = +inf` for finite `x ≠ 0`, `0 / 0 = NaN`. -/
def divF64 : F64 → F64 → F64
  | F64.nan, _ => F64.nan
  | _, F64.nan => F64.nan
  | F64.inf, F64.inf => F64.nan
  | F64.inf, F64.finite _ _ => F64.inf
  | F64.finite _ _, F64.inf => F64.finite 0 0
  | F64.finite m1 e1, F64.finite m2 e2 =>
    if m2 = 0 then (if m1 = 0 then F64.nan else F64.inf)
    else if m1 = 0 then F64.finite 0 0
    else
      let d := e1 - e2
      if 0 ≤ d then rnScaled (m1 * 2 ^ d.toNat) m2
      else rnScaled m1 (m2 * 2 ^ (-d).toNat)

/-- Comparison `m1 * 2 ^ e1 ≤ m2 * 2 ^ e2` on finite binary64 components,
computed by shifting the side with the smaller exponent. -/
def finLe (m1 : Nat) (e1 : Int) (m2 : Nat) (e2 : Int) : Bool :=
  if e1 ≤ e2 then decide (m1 ≤ m2 * 2 ^ (e2 - e1).toNat)
  else decide (m1 * 2 ^ (e1 - e2).toNat ≤ m2)

/-- Strict comparison `m1 * 2 ^ e1 < m2 * 2 ^ e2` on finite binary64
components. -/
def finLt (m1 : Nat) (e1 : Int) (m2 : Nat) (e2 : Int) : Bool :=
  if e1 ≤ e2 then decide (m1 < m2 * 2 ^ (e2 - e1).toNat)
  else decide (m1 * 2 ^ (e1 - e2).toNat < m2)

/-- IEEE binary64 `<=` on nonnegative values: false whenever an operand is
NaN. -/
def leF64 : F64 → F64 → Bool
  | F64.nan, _ => false
  | _, F64.nan => false
  | F64.inf, F64.inf => true
  | F64.inf, F64.finite _ _ => false
  | F64.finite _ _, F64.inf => true
  | F64.finite m1 e1, F64.finite m2 e2 => finLe m1 e1 m2 e2

/-- IEEE binary64 `<` on nonnegative values: false whenever an operand is
NaN. -/
def ltF64 : F64 → F64 → Bool
  | F64.nan, _ => false
  | _, F64.nan => false
  | F64.inf, F64.inf => false
  | F64.inf, F64.finite _ _ => false
  | F64.finite _ _, F64.inf => true
  | F64.finite m1 e1, F64.finite m2 e2 => finLt m1 e1 m2 e2

/-- IEEE binary64 `>=`, the comparison `set_value` performs against its three
thresholds. -/
def geF64 (a b : F64) : Bool := leF64 b a

/-- The f64 literal `1.0`. -/
def lit1 : F64 := rnScaled 1 1

/-- The f64 literal `0.9`: the binary64 value nearest 9/10 (slightly above
9/10). -/
def lit09 : F64 := rnScaled 9 10

/-- The f64 literal `0.75` (exactly representable). -/
def lit075 : F64 := rnScaled 3 4

/-- Translated from `LimitTracker::set_value` (`ref_cell.rs` lines 122-136).
The f64 computation `self.value as f64 / self.max as f64` and the three
threshold comparisons are modelled by the binary64 semantics above (casts and
division round to nearest, ties to even). -/
def LimitTracker.set_value {σ : Type} [Messenger σ] (t : LimitTracker) (value : Nat) (m : σ) :
    LimitTracker × σ :=
  let t' : LimitTracker := { t with value := value }
  let percentage_of_max : F64 := divF64 (natToF64 t'.value) (natToF64 t'.max)
  if geF64 percentage_of_max lit1 then (t', Messenger.send m msgOverQuota)
  else if geF64 percentage_of_max lit09 then (t', Messenger.send m msgWarning90)
  else if geF64 percentage_of_max lit075 then (t', Messenger.send m msgWarning75)
  else (t', m)

/-- Translated from the `tests` module of `ref_cell.rs` (lines 205-211):
`struct MockMessenger { sent_messages: RefCell<Vec<String>> }`; the `RefCell`
interior mutability is modelled by explicit state passing. -/
structure MockMessenger where
  sent_messages : List String
deriving DecidableEq, Repr

/-- Translated from `MockMessenger::new` (`ref_cell.rs`). -/
def MockMessenger.new : MockMessenger :=
  { sent_messages := [] }

/-- Translated from `impl Messenger for MockMessenger` (`ref_cell.rs` lines
219-223): `self.sent_messages.borrow_mut().push(String::from(message))`. -/
instance : Messenger MockMessenger where
  send m message := { m with sent_messages := m.sent_messages ++ [message] }

/-! ### Chapter 9, `recoverable_with_result.rs`: the error-kind-matching snippet -/

/-- Modelled io::ErrorKind: `NotFound` plus all other kinds, tagged by name. -/
inductive ErrorKind
  | NotFound
  | otherKind (name : String)
deriving DecidableEq, Repr

/-- A file handle, carrying the path it was opened or created with. -/
structure RFile where
  path : String
deriving DecidableEq, Repr

/-- Oracle for the ambient file system: what `File::open` and `File::create`
return for each path. -/
structure FsOracle where
  openFile : String → Except ErrorKind RFile
  createFile : String → Except ErrorKind RFile

/-- Result of running the snippet: either the obtained file handle, or a panic
with its message. -/
inductive SnippetResult
  | ok (f : RFile)
  | panicked (msg : String)
deriving DecidableEq, Repr

/-- Rendering of an `ErrorKind` in the `{:?}` panic messages. -/
def ErrorKind.debugStr : ErrorKind → String
  | ErrorKind.NotFound => "NotFound"
  | ErrorKind.otherKind name => name

/-- Translated from the error-kind-matching snippet of `_run`
(`recoverable_with_result.rs` lines 31-48): open `"hello.txt"`; on
`ErrorKind::NotFound` create `"hello.txt"` (panicking if that fails); panic on
any other open error. -/
def errorKindSnippet (fs : FsOracle) : SnippetResult :=
  match fs.openFile "hello.txt" with
  | Except.ok file => SnippetResult.ok file
  | Except.error e =>
    match e with
    | ErrorKind.NotFound =>
      match fs.createFile "hello.txt" with
      | Except.ok fc => SnippetResult.ok fc
      | Except.error e2 =>
        SnippetResult.panicked ("Problem creating the file: " ++ e2.debugStr)
    | other_error =>
      SnippetResult.panicked ("Problem opening the file: " ++ other_error.debugStr)

/-- True exactly when the snippet panics. -/
def SnippetResult.isPanic : SnippetResult → Bool
  | SnippetResult.ok _ => false
  | SnippetResult.panicked _ => true

/-! ### Repository structure: chapter layout, entry functions, main bodies -/

/-- A chapter module file, with the names of the top-level `pub fn` entry
points it exposes that follow the `run` convention (`run` or `_run`); empty
when the file exposes no such entry point. Transcribed from the source. -/
structure SourceFile where
  fileName : String
  entryFns : List String
deriving DecidableEq, Repr

/-- A chapter crate: its module files, and the module calls `(module, fn)`
performed (not commented out) by its `fn main`, `none` when the chapter has no
`main.rs` under the sources examined. Transcribed from the source. -/
structure Chapter where
  chapterName : String
  files : List SourceFile
  mainCalls : Option (List (String × String))
deriving DecidableEq, Repr

/-- Transcribed from `src/chapter_3/src`. -/
def chapter3 : Chapter :=
  { chapterName := "chapter_3"
    files := [⟨"control_flow", ["run"]⟩, ⟨"data_types", ["_run"]⟩,
              ⟨"functions", ["run"]⟩, ⟨"variables", ["_run"]⟩]
    mainCalls := none }

/-- Transcribed from `src/chapter_4/src`. -/
def chapter4 : Chapter :=
  { chapterName := "chapter_4"
    files := [⟨"ownership", ["run"]⟩, ⟨"references_borrowing", ["_run"]⟩,
              ⟨"slice", ["run"]⟩]
    mainCalls := none }

/-- Transcribed from `src/chapter_5/src`. -/
def chapter5 : Chapter :=
  { chapterName := "chapter_5"
    files := [⟨"defining", ["_run"]⟩, ⟨"example_program", ["_run"]⟩,
              ⟨"method_syntax", ["run"]⟩]
    mainCalls := none }

/-- Transcribed from `src/chapter_6/src`. -/
def chapter6 : Chapter :=
  { chapterName := "chapter_6"
    files := [⟨"defining_enums", ["run"]⟩, ⟨"if_let", ["_run"]⟩,
              ⟨"match_flow", ["run"]⟩]
    mainCalls := none }

/-- Transcribed from `src/chapter_7/src`; `lib.rs` exposes no `run`-style
entry point (only restaurant-module stubs). -/
def chapter7 : Chapter :=
  { chapterName := "chapter_7"
    files := [⟨"lib", []⟩, ⟨"use_keyword", ["run"]⟩]
    mainCalls := none }

/-- Transcribed from `src/chapter_8/src`; `main` calls only
`hash_maps::run()`, the `vectors::run()` and `strings::run()` calls are
commented out. -/
def chapter8 : Chapter :=
  { chapterName := "chapter_8"
    files := [⟨"vectors", ["run"]⟩, ⟨"strings", ["run"]⟩, ⟨"hash_maps", ["run"]⟩]
    mainCalls := some [("hash_maps", "run")] }

/-- Transcribed from `src/chapter_9/src`; `main` calls only
`when_to_panic::run()`, the other two calls are commented out, and both
`panicking` and `recoverable_with_result` expose `_run`, not `run`. -/
def chapter9 : Chapter :=
  { chapterName := "chapter_9"
    files := [⟨"panicking", ["_run"]⟩, ⟨"recoverable_with_result", ["_run"]⟩,
              ⟨"when_to_panic", ["run"]⟩]
    mainCalls := some [("when_to_panic", "run")] }

/-- Transcribed from `src/chapter_10/src`; `main` runs inline code and then
calls `generic_types::run()`; `lifetimes` and `traits` are not even declared
as modules of the crate. -/
def chapter10 : Chapter :=
  { chapterName := "chapter_10"
    files := [⟨"generic_types", ["run"]⟩, ⟨"lifetimes", ["run"]⟩, ⟨"traits", ["_run"]⟩]
    mainCalls := some [("generic_types", "run")] }

/-- Transcribed from `src/chapter_11/src`; a library crate: `lib.rs` exposes
`add_two`, `greeting` and `Guess`, no `run`-style entry point and no `main`. -/
def chapter11 : Chapter :=
  { chapterName := "chapter_11"
    files := [⟨"lib", []⟩]
    mainCalls := none }

/-- Transcribed from `src/chapter_13/src`. -/
def chapter13 : Chapter :=
  { chapterName := "chapter_13"
    files := [⟨"closures", ["run"]⟩, ⟨"iterators", ["run"]⟩]
    mainCalls := none }

/-- Transcribed from `src/chapter_15/src`; `main` calls only
`drop_trait::run()`, the other calls are commented out. -/
def chapter15 : Chapter :=
  { chapterName := "chapter_15"
    files := [⟨"box_pointer", ["run"]⟩, ⟨"deref_trait", ["run"]⟩,
              ⟨"drop_trait", ["run"]⟩, ⟨"ref_cell", ["run"]⟩,
              ⟨"reference_counted", ["run"]⟩]
    mainCalls := some [("drop_trait", "run")] }

/-- All chapters of the repository. -/
def chapters : List Chapter :=
  [chapter3, chapter4, chapter5, chapter6, chapter7, chapter8, chapter9,
   chapter10, chapter11, chapter13, chapter15]

/-- Claim C4 as stated: every module file of every chapter exposes a `run`
entry point, and that `run` is invoked directly from the chapter entry point
(its `fn main`). -/
def c4Stated : Prop :=
  ∀ ch ∈ chapters, ∀ f ∈ ch.files,
    "run" ∈ f.entryFns ∧
    ∃ calls, ch.mainCalls = some calls ∧ (f.fileName, "run") ∈ calls

instance : Decidable c4Stated := by
  unfold c4Stated
  infer_instance

/-! ### Chapter 13, `closures.rs`: the spawn/join fragment (concurrency model) -/

/-- Actions of the main thread in the thread section of `closures::run`
(`closures.rs` lines 156-163): spawn the thread, join it, then continue with
the remaining (printing) statements of `run`. -/
inductive MainAct
  | spawnThread
  | joinThread
  | printLine (s : String)
deriving DecidableEq, Repr

/-- State of the two-thread system: the remaining main-thread program, the
lines the spawned thread still has to print (`none` when no spawned thread is
live), and the console output so far. -/
structure ThreadSysState where
  mainProg : List MainAct
  pending : Option (List String)
  output : List String
deriving DecidableEq, Repr

/-- Output of the spawned closure `move || println!("from thread: {:?}", list3)`:
it owns `list3` (moved into the closure) and prints it once. -/
def threadBodyOutput (list3 : List Nat) : List String :=
  ["from thread: " ++ toString list3]

/-- The concrete body spawned in `closures::run`, where `list3 = vec![1, 2, 3]`. -/
def spawnBody : List String := threadBodyOutput [1, 2, 3]

/-- One scheduler step: `choice = true` steps the main thread (a `joinThread`
blocks while the spawned thread still has pending lines), `choice = false`
steps the spawned thread (printing its next pending line). -/
def threadStep (body : List String) (choice : Bool) (s : ThreadSysState) : ThreadSysState :=
  if choice then
    match s.mainProg with
    | [] => s
    | MainAct.spawnThread :: rest => { s with mainProg := rest, pending := some body }
    | MainAct.joinThread :: rest =>
      match s.pending with
      | some [] => { s with mainProg := rest, pending := none }
      | _ => s
    | MainAct.printLine l :: rest => { s with mainProg := rest, output := s.output ++ [l] }
  else
    match s.pending with
    | some (l :: ls) => { s with pending := some ls, output := s.output ++ [l] }
    | _ => s

/-- Run the system under a scheduler (a list of choices). -/
def threadExec (body : List String) (sched : List Bool) (s : ThreadSysState) : ThreadSysState :=
  sched.foldl (fun st c => threadStep body c st) s

/-- Main-thread program of the thread section of `closures::run`: translated
from `thread::spawn(move || ...).join().unwrap();` followed by the rest of
`run` (abstracted as the print lines `conts`). -/
def closuresThreadProg (conts : List String) : List MainAct :=
  MainAct.spawnThread :: MainAct.joinThread :: conts.map MainAct.printLine

/-- Initial state of the thread section: no spawned thread, empty output. -/
def closuresInit (conts : List String) : ThreadSysState :=
  { mainProg := closuresThreadProg conts, pending := none, output := [] }

/-- Transcribed from the source: the only `thread::spawn` call site in the
repository (`grep` over all 36 files), in `closures::run`, a `move` closure
joined immediately. -/
def threadSpawnSites : List (String × String) :=
  [("chapter_13/src/closures.rs", "run")]

/-- Invariant of the spawn/join system: the state is in the pre-spawn phase,
the spawned phase (thread owns the unprinted suffix of its body), or the
post-join phase (all of the body printed, main continuing). -/
def ThreadInv (body conts : List String) (s : ThreadSysState) : Prop :=
  (s.mainProg = closuresThreadProg conts ∧ s.pending = none ∧ s.output = []) ∨
  (∃ done rest, body = done ++ rest ∧
    s.mainProg = MainAct.joinThread :: conts.map MainAct.printLine ∧
    s.pending = some rest ∧ s.output = done) ∨
  (∃ pre suf, conts = pre ++ suf ∧
    s.mainProg = suf.map MainAct.printLine ∧
    s.pending = none ∧ s.output = body ++ pre)

/-! ### Chapter entry points as functions of the argument vector -/

/-- Ambient run environment: the console output each zero-argument module
`run()` produces under the current process environment (file system, heap
layout, hash seeds).  In the source every `pub fn run()` takes no parameters
and no file of the repository calls `std::env::args`, so these outputs cannot
depend on the argument vector. -/
def RunEnv : Type := String → List String

/-- Translated from `src/chapter_8/src/main.rs`: `main` calls only
`hash_maps::run()` (the other calls are commented out) and never reads the
argument vector. -/
def chapter8_main (_args : List String) (env : RunEnv) : List String :=
  env "hash_maps::run"

/-- Translated from `src/chapter_9/src/main.rs`: `main` calls only
`when_to_panic::run()` and never reads the argument vector. -/
def chapter9_main (_args : List String) (env : RunEnv) : List String :=
  env "when_to_panic::run"

/-- Translated from `find_largest` in `src/chapter_10/src/main.rs`: `none`
models the index-out-of-bounds panic of `&list[0]` on an empty slice. -/
def find_largest (list : List Int) : Option Int :=
  match list with
  | [] => none
  | x :: xs => some (xs.foldl (fun largest item => if item > largest then item else largest) x)

/-- Format one `println!("... {}", v)` line of `chapter_10`'s `main` (empty
output when the value computation would have panicked). -/
def printLargest (pre : String) (r : Option Int) : List String :=
  match r with
  | some v => [pre ++ toString v]
  | none => []

/-- Translated from `src/chapter_10/src/main.rs`: inline largest-number
computations and prints, then `generic_types::run()`; never reads the
argument vector. -/
def chapter10_main (_args : List String) (env : RunEnv) : List String :=
  let number_list : List Int := [34, 50, 25, 100, 65]
  let number_list2 : List Int := [34, 50, 25, 100, 65]
  let number_list3 : List Int := [102, 34, 6000, 89, 54, 2, 43, 8]
  printLargest "the largest number is " (find_largest number_list) ++
  printLargest "largest in list 1 is: " (find_largest number_list2) ++
  printLargest "largest in list 2 is: " (find_largest number_list3) ++
  env "generic_types::run"

/-- Translated from `src/chapter_15/src/main.rs`: `main` calls only
`drop_trait::run()` and never reads the argument vector. -/
def chapter15_main (_args : List String) (env : RunEnv) : List String :=
  env "drop_trait::run"

/-- Modelled from the spec: the `main.rs` entry points of chapters 3-7 and 13
are not among the sources examined; per the spec each chapter is an
independent command-line program with no flags and no configuration whose
entry point directly invokes module `run()` functions, so its console output
is the ambient-environment output of those calls, independent of the argument
vector. -/
def chapter3_main (_args : List String) (env : RunEnv) : List String :=
  env "chapter_3::main"

/-- Modelled from the spec: see `chapter3_main`. -/
def chapter4_main (_args : List String) (env : RunEnv) : List String :=
  env "chapter_4::main"

/-- Modelled from the spec: see `chapter3_main`. -/
def chapter5_main (_args : List String) (env : RunEnv) : List String :=
  env "chapter_5::main"

/-- Modelled from the spec: see `chapter3_main`. -/
def chapter6_main (_args : List String) (env : RunEnv) : List String :=
  env "chapter_6::main"

/-- Modelled from the spec: see `chapter3_main`. -/
def chapter7_main (_args : List String) (env : RunEnv) : List String :=
  env "chapter_7::main"

/-- Modelled from the spec: see `chapter3_main`. -/
def chapter13_main (_args : List String) (env : RunEnv) : List String :=
  env "chapter_13::main"

/-! ### Helper lemmas -/

/-- The counting fold of `most_stocked` computes the pair of occurrence counts
of `Red` and `Blue`. -/
lemma countPair_foldl (l : List ShirtColor) (a b : Nat) :
    l.foldl
      (fun (p : Nat × Nat) color =>
        match color with
        | ShirtColor.Red => (p.1 + 1, p.2)
        | ShirtColor.Blue => (p.1, p.2 + 1))
      (a, b)
    = (a + l.count ShirtColor.Red, b + l.count ShirtColor.Blue) := by
  induction l generalizing a b with
  | nil => simp
  | cons c tl ih =>
    have hRR : (ShirtColor.Red == ShirtColor.Red) = true := rfl
    have hBR : (ShirtColor.Blue == ShirtColor.Red) = false := rfl
    have hRB : (ShirtColor.Red == ShirtColor.Blue) = false := rfl
    have hBB : (ShirtColor.Blue == ShirtColor.Blue) = true := rfl
    cases c <;> simp [List.count_cons, ih, hRR, hBR, hRB, hBB] <;> omega

/-- Closed form of `most_stocked` in terms of occurrence counts. -/
lemma most_stocked_eq_count (inv : Inventory) :
    inv.most_stocked =
      if inv.shirts.count ShirtColor.Blue < inv.shirts.count ShirtColor.Red
      then ShirtColor.Red else ShirtColor.Blue := by
  unfold Inventory.most_stocked
  simp only [countPair_foldl, Nat.zero_add, gt_iff_lt]

/-! ### Claim theorems -/

/-- C1: for every `Inventory` and every user preference, `Inventory::giveaway`
returns the preferred shirt color when the preference is `Some`, and when the
preference is `None` it falls back to the result of `most_stocked`. -/
theorem giveaway_spec (inv : Inventory) (c : ShirtColor) :
    inv.giveaway (some c) = c ∧ inv.giveaway none = inv.most_stocked :=
  ⟨rfl, rfl⟩

/-- C5: the `iterator_sum` unit test outcome: summing the fixed list
`[1, 2, 3]` yields the fixed total `6`. -/
theorem iterator_sum_spec : iterator_sum_total = 6 := by decide

/-- C8: for every inventory stocking at most as many `Red` shirts as `Blue`
shirts (including the empty inventory and exact ties), `most_stocked` returns
`Blue`; and `giveaway` with a `None` preference returns `Red` exactly when
`Red` shirts strictly outnumber `Blue` shirts. -/
theorem most_stocked_blue_bias (inv : Inventory) :
    (inv.shirts.count ShirtColor.Red ≤ inv.shirts.count ShirtColor.Blue →
      inv.most_stocked = ShirtColor.Blue) ∧
    (inv.giveaway none = ShirtColor.Red ↔
      inv.shirts.count ShirtColor.Blue < inv.shirts.count ShirtColor.Red) := by
  have hms := most_stocked_eq_count inv
  constructor
  · intro h
    rw [hms, if_neg (by omega)]
  · show inv.most_stocked = ShirtColor.Red ↔ _
    rw [hms]
    by_cases h : inv.shirts.count ShirtColor.Blue < inv.shirts.count ShirtColor.Red
    · simp [h]
    · simp [h]

/-- Witness for C8 at the concrete store inventory
`vec![Blue, Red, Blue]` of `closures::run` and at the empty inventory. -/
theorem most_stocked_blue_bias_witness :
    (Inventory.mk [ShirtColor.Blue, ShirtColor.Red, ShirtColor.Blue]).most_stocked
        = ShirtColor.Blue ∧
    (Inventory.mk []).most_stocked = ShirtColor.Blue :=
  ⟨(most_stocked_blue_bias ⟨[ShirtColor.Blue, ShirtColor.Red, ShirtColor.Blue]⟩).1 (by decide),
   (most_stocked_blue_bias ⟨[]⟩).1 (by decide)⟩

/-- C9: `Guess::new(value)` panics exactly when `value < 1` or `value > 100`,
with distinct messages for the two sides, and otherwise returns a `Guess`
whose `value` field equals the argument and lies in `[1, 100]`. -/
theorem guess_new_spec (value : Int) :
    (Guess.newPanics value = true ↔ value < 1 ∨ value > 100) ∧
    (value < 1 → Guess.new value = Except.error (guessMsgLt1 value)) ∧
    (value > 100 → Guess.new value = Except.error (guessMsgGt100 value)) ∧
    guessMsgLt1 value ≠ guessMsgGt100 value ∧
    ∀ g, Guess.new value = Except.ok g → g.value = value ∧ 1 ≤ g.value ∧ g.value ≤ 100 := by
  refine ⟨?_, ?_, ?_, ?_, ?_⟩
  · unfold Guess.newPanics Guess.new
    split_ifs with h1 h2 <;> simp <;> omega
  · intro h
    unfold Guess.new
    rw [if_pos h]
  · intro h
    unfold Guess.new
    rw [if_neg (by omega), if_pos h]
  · intro h
    have h2 := congrArg String.length h
    rw [guessMsgLt1, guessMsgGt100, String.length_append, String.length_append] at h2
    have e1 : (String.length "The value provided was less than 1, got: ") = 41 := by decide
    have e2 : (String.length "The value provided was greater than 100, got: ") = 46 := by decide
    rw [e1, e2] at h2
    omega
  · intro g hg
    unfold Guess.new at hg
    split_ifs at hg with h1 h2
    cases hg
    refine ⟨rfl, ?_, ?_⟩
    · show (1 : Int) ≤ value
      omega
    · show value ≤ (100 : Int)
      omega

/-- Witness for C9: `Guess::new` panics at 0 and at 200 and succeeds at 50
with value 50 in range. -/
theorem guess_new_spec_witness :
    Guess.newPanics 0 = true ∧ Guess.newPanics 200 = true ∧
    (Guess.mk 50).value = 50 ∧ 1 ≤ (Guess.mk 50).value ∧ (Guess.mk 50).value ≤ 100 :=
  ⟨(guess_new_spec 0).1.mpr (Or.inl (by decide)),
   (guess_new_spec 200).1.mpr (Or.inr (by decide)),
   (guess_new_spec 50).2.2.2.2 (Guess.mk 50) rfl⟩

/-- C10 counterexample: the claim says `greeting(name)` never contains the
name, but at the concrete input `"Hello"` the returned string `"Hello"`
contains the name. -/
theorem greeting_contains_counterexample :
    greeting "Hello" = "Hello" ∧ strContains (greeting "Hello") "Hello" = true :=
  ⟨rfl, by decide⟩

/-- C10 (amended): `greeting(name)` returns exactly `"Hello"` for every input
name; in particular `greeting("John")` does not contain `"John"`, so the
assertion of the embedded `greeting_contains_name` test is false. -/
theorem greeting_amended_spec :
    (∀ name, greeting name = "Hello") ∧
    strContains (greeting "John") "John" = false :=
  ⟨fun _ => rfl, by decide⟩

/-- C4 counterexample: not every chapter source file exposes a `run()` invoked
from its chapter entry point; concretely, `chapter_9`'s
`recoverable_with_result` exposes only `_run`, and `chapter_9`'s `main`
invokes only `when_to_panic::run()`. -/
theorem run_convention_counterexample :
    ¬ c4Stated ∧
    chapter9 ∈ chapters ∧
    (⟨"recoverable_with_result", ["_run"]⟩ : SourceFile) ∈ chapter9.files ∧
    "run" ∉ (⟨"recoverable_with_result", ["_run"]⟩ : SourceFile).entryFns ∧
    chapter9.mainCalls = some [("when_to_panic", "run")] :=
  ⟨by decide, by decide, by decide, by decide, rfl⟩

/-- C4 (amended): every call performed by a chapter `main` (where present
among the sources) is a direct call to a `run` entry point exposed by one of
that chapter's module files, and every module file exposes at most one
`run`-convention entry point, named `run` or `_run` (the two `lib.rs` files
expose none). -/
theorem run_convention_amended_spec :
    ∀ ch ∈ chapters,
      (∀ p ∈ ch.mainCalls.getD [], p.2 = "run" ∧
        ∃ f ∈ ch.files, f.fileName = p.1 ∧ "run" ∈ f.entryFns) ∧
      ∀ f ∈ ch.files, f.entryFns = ["run"] ∨ f.entryFns = ["_run"] ∨ f.entryFns = [] := by
  decide

/-- Witness for C4 (amended) at `chapter_9` and its single main call. -/
theorem run_convention_amended_witness :
    ("when_to_panic", "run").2 = "run" ∧
    ∃ f ∈ chapter9.files, f.fileName = ("when_to_panic", "run").1 ∧ "run" ∈ f.entryFns :=
  (run_convention_amended_spec chapter9 (by decide)).1 ("when_to_panic", "run") (by decide)

/-- The scaled `≤` comparison on finite binary64 components agrees with the
comparison of the represented rational values. -/
lemma finLe_iff (m1 m2 : Nat) (e1 e2 : Int) :
    finLe m1 e1 m2 e2 = true ↔ (m1 : ℚ) * 2 ^ e1 ≤ (m2 : ℚ) * 2 ^ e2 := by
  have h2 : (2 : ℚ) ≠ 0 := by norm_num
  have hpos : (0 : ℚ) < 2 := by norm_num
  unfold finLe
  split_ifs with h
  · rw [decide_eq_true_eq]
    have hy : (2 : ℚ) ^ e2 = ((2 ^ (e2 - e1).toNat : Nat) : ℚ) * 2 ^ e1 := by
      push_cast
      rw [← zpow_natCast (2 : ℚ) (e2 - e1).toNat, ← zpow_add₀ h2]
      congr 1
      omega
    rw [hy, ← mul_assoc, mul_le_mul_right (zpow_pos hpos e1)]
    exact_mod_cast Iff.rfl
  · rw [decide_eq_true_eq]
    have hy : (2 : ℚ) ^ e1 = ((2 ^ (e1 - e2).toNat : Nat) : ℚ) * 2 ^ e2 := by
      push_cast
      rw [← zpow_natCast (2 : ℚ) (e1 - e2).toNat, ← zpow_add₀ h2]
      congr 1
      omega
    rw [hy, ← mul_assoc, mul_le_mul_right (zpow_pos hpos e2)]
    exact_mod_cast Iff.rfl

/-- The scaled `<` comparison on finite binary64 components agrees with the
comparison of the represented rational values. -/
lemma finLt_iff (m1 m2 : Nat) (e1 e2 : Int) :
    finLt m1 e1 m2 e2 = true ↔ (m1 : ℚ) * 2 ^ e1 < (m2 : ℚ) * 2 ^ e2 := by
  have h2 : (2 : ℚ) ≠ 0 := by norm_num
  have hpos : (0 : ℚ) < 2 := by norm_num
  unfold finLt
  split_ifs with h
  · rw [decide_eq_true_eq]
    have hy : (2 : ℚ) ^ e2 = ((2 ^ (e2 - e1).toNat : Nat) : ℚ) * 2 ^ e1 := by
      push_cast
      rw [← zpow_natCast (2 : ℚ) (e2 - e1).toNat, ← zpow_add₀ h2]
      congr 1
      omega
    rw [hy, ← mul_assoc, mul_lt_mul_right (zpow_pos hpos e1)]
    exact_mod_cast Iff.rfl
  · rw [decide_eq_true_eq]
    have hy : (2 : ℚ) ^ e1 = ((2 ^ (e1 - e2).toNat : Nat) : ℚ) * 2 ^ e2 := by
      push_cast
      rw [← zpow_natCast (2 : ℚ) (e1 - e2).toNat, ← zpow_add₀ h2]
      congr 1
      omega
    rw [hy, ← mul_assoc, mul_lt_mul_right (zpow_pos hpos e2)]
    exact_mod_cast Iff.rfl

/-- C2 counterexample: at max = 9000000000000009 and value = 8100000000000008
the exact ratio value/max lies in [0.75, 0.9) — witnessed by
`3 * max ≤ 4 * value` and `10 * value < 9 * max` — yet the f64 quotient the
program computes rounds up to the binary64 constant `0.9`, so the single
message `set_value` sends is the 90% urgent warning, not the 75% warning. -/
theorem limit_tracker_counterexample :
    3 * 9000000000000009 ≤ 4 * 8100000000000008 ∧
    10 * 8100000000000008 < 9 * 9000000000000009 ∧
    ((LimitTracker.new 9000000000000009).set_value 8100000000000008
        MockMessenger.new).2.sent_messages = [msgWarning90] ∧
    msgWarning90 ≠ msgWarning75 :=
  ⟨by norm_num, by norm_num, by decide, by decide⟩

/-- C2 (amended): the mock-object test outcome holds — a `LimitTracker` with
max 100 over a fresh `MockMessenger` records exactly one message after
`set_value(80)` — and for every max > 0, a single `set_value` call whose f64
quotient `value as f64 / max as f64`, as the program computes it, is at least
the f64 constant 0.75 and below the f64 constant 0.9 sends exactly the single
75% warning.  An exact rational ratio in [0.75, 0.9) does not suffice, since
the f64 quotient can round up to the 0.9 constant. -/
theorem limit_tracker_amended_spec :
    ((LimitTracker.new 100).set_value 80 MockMessenger.new).2.sent_messages.length = 1 ∧
    ∀ max value : Nat, 0 < max →
      geF64 (divF64 (natToF64 value) (natToF64 max)) lit075 = true →
      ltF64 (divF64 (natToF64 value) (natToF64 max)) lit09 = true →
      ((LimitTracker.new max).set_value value MockMessenger.new).2.sent_messages
        = [msgWarning75] := by
  refine ⟨by decide, ?_⟩
  intro max value _h1 h75 h09
  rcases hp : divF64 (natToF64 value) (natToF64 max) with ⟨m, e⟩ | _ | _
  case inf =>
    rw [hp] at h09
    exact absurd h09 (by decide)
  case nan =>
    rw [hp] at h75
    exact absurd h75 (by decide)
  case finite =>
    rw [hp] at h75 h09
    have e09 : lit09 = F64.finite 8106479329266893 (-53) := by decide
    have e1 : lit1 = F64.finite 4503599627370496 (-52) := by decide
    have hlt : finLt m e 8106479329266893 (-53) = true := by
      rw [e09] at h09
      simpa [ltF64] using h09
    have hq1 : (m : ℚ) * 2 ^ e < (8106479329266893 : ℚ) * 2 ^ (-53 : Int) := by
      have h := (finLt_iff m 8106479329266893 e (-53)).mp hlt
      push_cast at h
      exact h
    have hq2 : (8106479329266893 : ℚ) * 2 ^ (-53 : Int)
        < (4503599627370496 : ℚ) * 2 ^ (-52 : Int) := by
      have h : finLt 8106479329266893 (-53) 4503599627370496 (-52) = true := by decide
      have h' := (finLt_iff 8106479329266893 4503599627370496 (-53) (-52)).mp h
      push_cast at h'
      exact h'
    have h1f : geF64 (F64.finite m e) lit1 = false := by
      rw [e1]
      show leF64 (F64.finite 4503599627370496 (-52)) (F64.finite m e) = false
      cases hb : finLe 4503599627370496 (-52) m e
      · simp [leF64, hb]
      · exfalso
        have hle := (finLe_iff 4503599627370496 m (-52) e).mp hb
        push_cast at hle
        exact absurd hle (not_le.mpr (hq1.trans hq2))
    have h09f : geF64 (F64.finite m e) lit09 = false := by
      rw [e09]
      show leF64 (F64.finite 8106479329266893 (-53)) (F64.finite m e) = false
      cases hb : finLe 8106479329266893 (-53) m e
      · simp [leF64, hb]
      · exfalso
        have hle := (finLe_iff 8106479329266893 m (-53) e).mp hb
        push_cast at hle
        exact absurd hle (not_le.mpr hq1)
    unfold LimitTracker.set_value LimitTracker.new
    simp only []
    rw [hp, h1f, h09f, h75]
    rfl

/-- Witness for C2 (amended) at the test inputs max = 100, value = 80, where
the f64 quotient is exactly 0.8. -/
theorem limit_tracker_amended_witness :
    (0 : Nat) < 100 ∧
    geF64 (divF64 (natToF64 80) (natToF64 100)) lit075 = true ∧
    ltF64 (divF64 (natToF64 80) (natToF64 100)) lit09 = true ∧
    ((LimitTracker.new 100).set_value 80 MockMessenger.new).2.sent_messages
      = [msgWarning75] :=
  ⟨by decide, by decide, by decide,
   limit_tracker_amended_spec.2 100 80 (by decide) (by decide) (by decide)⟩

/-- C3: the error-kind-matching snippet panics exactly when the open of
`"hello.txt"` fails with a kind other than `NotFound`, or fails with
`NotFound` and the subsequent create of `"hello.txt"` fails; on
`NotFound` it returns the created file; and its result depends only on what
the file system answers for the name `"hello.txt"`. -/
theorem error_kind_snippet_spec :
    (∀ fs : FsOracle, (errorKindSnippet fs).isPanic = true ↔
       ∃ e, fs.openFile "hello.txt" = Except.error e ∧
         (e ≠ ErrorKind.NotFound ∨
          ∃ e2, fs.createFile "hello.txt" = Except.error e2)) ∧
    (∀ (fs : FsOracle) (f : RFile),
       fs.openFile "hello.txt" = Except.error ErrorKind.NotFound →
       fs.createFile "hello.txt" = Except.ok f →
       errorKindSnippet fs = SnippetResult.ok f) ∧
    (∀ fs fs' : FsOracle,
       fs.openFile "hello.txt" = fs'.openFile "hello.txt" →
       fs.createFile "hello.txt" = fs'.createFile "hello.txt" →
       errorKindSnippet fs = errorKindSnippet fs') := by
  refine ⟨?_, ?_, ?_⟩
  · intro fs
    unfold errorKindSnippet
    rcases ho : fs.openFile "hello.txt" with e | f
    · rcases e with _ | name
      · rcases hc : fs.createFile "hello.txt" with e2 | fc
        · simp [SnippetResult.isPanic, hc]
        · simp [SnippetResult.isPanic, hc]
      · simp [SnippetResult.isPanic]
    · simp [SnippetResult.isPanic]
  · intro fs f ho hc
    unfold errorKindSnippet
    rw [ho, hc]
  · intro fs fs' ho hc
    unfold errorKindSnippet
    rw [ho, hc]

/-- Witness for C3: a file system missing `"hello.txt"` on which create
succeeds makes the snippet return the created handle without panicking. -/
theorem error_kind_snippet_witness :
    errorKindSnippet
        ⟨fun _ => Except.error ErrorKind.NotFound, fun p => Except.ok ⟨p⟩⟩
      = SnippetResult.ok ⟨"hello.txt"⟩ :=
  error_kind_snippet_spec.2.1
    ⟨fun _ => Except.error ErrorKind.NotFound, fun p => Except.ok ⟨p⟩⟩
    ⟨"hello.txt"⟩ rfl rfl

/-- C7: every chapter entry point produces console output independent of the
argument vector — two runs of the same chapter `main` with different argument
vectors under the same ambient environment (file system state) yield identical
output. -/
theorem chapter_main_args_independent (args args' : List String) (env : RunEnv) :
    chapter3_main args env = chapter3_main args' env ∧
    chapter4_main args env = chapter4_main args' env ∧
    chapter5_main args env = chapter5_main args' env ∧
    chapter6_main args env = chapter6_main args' env ∧
    chapter7_main args env = chapter7_main args' env ∧
    chapter8_main args env = chapter8_main args' env ∧
    chapter9_main args env = chapter9_main args' env ∧
    chapter10_main args env = chapter10_main args' env ∧
    chapter13_main args env = chapter13_main args' env ∧
    chapter15_main args env = chapter15_main args' env :=
  ⟨rfl, rfl, rfl, rfl, rfl, rfl, rfl, rfl, rfl, rfl⟩

/-- One scheduler step preserves the spawn/join invariant. -/
lemma threadInv_step (body conts : List String) (choice : Bool) (s : ThreadSysState)
    (h : ThreadInv body conts s) : ThreadInv body conts (threadStep body choice s) := by
  obtain ⟨mp, pd, out⟩ := s
  rcases h with ⟨h1, h2, h3⟩ | ⟨dn, rest, hb, h1, h2, h3⟩ | ⟨pre, suf, hc, h1, h2, h3⟩
  · simp only at h1 h2 h3
    subst h1; subst h2; subst h3
    cases choice
    · exact Or.inl ⟨rfl, rfl, rfl⟩
    · exact Or.inr (Or.inl ⟨[], body, rfl, rfl, rfl, rfl⟩)
  · simp only at h1 h2 h3
    subst h1; subst h2; subst h3
    cases choice
    · rcases rest with _ | ⟨l, ls⟩
      · exact Or.inr (Or.inl ⟨out, [], hb, rfl, rfl, rfl⟩)
      · exact Or.inr (Or.inl ⟨out ++ [l], ls, by simpa using hb, rfl, rfl, rfl⟩)
    · rcases rest with _ | ⟨l, ls⟩
      · refine Or.inr (Or.inr ⟨[], conts, by simp, rfl, rfl, ?_⟩)
        simp only [threadStep]
        simpa using hb.symm
      · exact Or.inr (Or.inl ⟨out, l :: ls, hb, rfl, rfl, rfl⟩)
  · simp only at h1 h2 h3
    subst h1; subst h2; subst h3
    cases choice
    · rcases suf with _ | ⟨c, suf⟩
      · exact Or.inr (Or.inr ⟨pre, [], hc, rfl, rfl, rfl⟩)
      · exact Or.inr (Or.inr ⟨pre, c :: suf, hc, rfl, rfl, rfl⟩)
    · rcases suf with _ | ⟨c, suf⟩
      · exact Or.inr (Or.inr ⟨pre, [], hc, rfl, rfl, rfl⟩)
      · refine Or.inr (Or.inr ⟨pre ++ [c], suf, by simpa using hc, rfl, rfl, ?_⟩)
        simp [threadStep]

/-- Executing any schedule preserves the spawn/join invariant. -/
lemma threadInv_exec (body conts : List String) (sched : List Bool) (s : ThreadSysState)
    (h : ThreadInv body conts s) : ThreadInv body conts (threadExec body sched s) := by
  induction sched generalizing s with
  | nil => exact h
  | cons c cs ih => exact ih _ (threadInv_step body conts c s h)

/-- C6: the one spawned thread of the repository (in `closures::run`) is
joined immediately after being spawned: under every scheduler interleaving
that runs the thread section of `closures::run` to completion, the spawned
thread prints everything it owns before `run` continues, so the output is the
thread output followed by the rest of `run`, deterministically. -/
theorem closures_thread_spec :
    threadSpawnSites.length = 1 ∧
    ∀ (conts : List String) (sched : List Bool),
      (threadExec spawnBody sched (closuresInit conts)).mainProg = [] →
      (threadExec spawnBody sched (closuresInit conts)).output = spawnBody ++ conts := by
  refine ⟨rfl, ?_⟩
  intro conts sched hdone
  have hinv := threadInv_exec spawnBody conts sched (closuresInit conts)
    (Or.inl ⟨rfl, rfl, rfl⟩)
  rcases hinv with ⟨h1, _h2, _h3⟩ | ⟨dn, rest, _hb, h1, _h2, _h3⟩ |
    ⟨pre, suf, hc, h1, _h2, h3⟩
  · rw [hdone] at h1
    simp [closuresThreadProg] at h1
  · rw [hdone] at h1
    cases h1
  · rw [hdone] at h1
    have hsuf : suf = [] := by
      cases suf
      · rfl
      · cases h1
    subst hsuf
    rw [h3, hc]
    simp

/-- Witness for C6: a concrete four-step schedule (spawn, thread print, join,
continuation print) runs the section to completion with the expected output. -/
theorem closures_thread_spec_witness :
    (threadExec spawnBody [true, false, true, true] (closuresInit ["x"])).mainProg = [] ∧
    (threadExec spawnBody [true, false, true, true] (closuresInit ["x"])).output
      = spawnBody ++ ["x"] :=
  ⟨rfl, closures_thread_spec.2 ["x"] [true, false, true, true] rfl⟩

end RustEx
